import Mathlib

/-!
Shallow embedding of the event-consumption pipeline (`consumer.py`,
class `EventSubscriber`) and of the room broadcaster
(`managers/auctions.py`, class `ConnectionManager`) of the auction
platform, together with theorems settling the specification claims
about retry/dead-letter handling, queue topology, request ids, room
registry maintenance and fan-out behaviour.
-/

namespace Spec2Proof

/-- Header values as they occur in broker message headers: strings,
integers, or the Python value `None` (written `.null`). -/
inductive HVal where
  | str : String → HVal
  | int : Nat → HVal
  | null : HVal
deriving DecidableEq

/-- A headers mapping, modelled as an association list with unique keys. -/
abbrev Headers := List (String × HVal)

/-- A delivered broker message (`aio_pika.IncomingMessage`): immutable body
bytes plus an optional headers mapping.  `none` models Python
`message.headers` being `None`; `some []` an empty mapping. -/
structure IncomingMessage where
  body : List Nat
  headers : Option Headers
deriving DecidableEq

/-- An envelope republished by the subscriber
(`aio_pika.Message(body=..., headers=...)`). -/
structure OutMessage where
  body : List Nat
  headers : Headers
deriving DecidableEq

/-- The configuration fields `EventSubscriber.__init__` stores on the
instance (connection handles aside). -/
structure EventSubscriber where
  exchange_name : String
  dead_letter_exchange : String
  retry_exchange : String
  max_retries : Nat
  message_ttl : Nat
  max_message_count : Nat
deriving DecidableEq

/-- `EventSubscriber(exchange_name, dead_letter_exchange)`: the constructor
fixes `retry_exchange = "retry_exchange"`, `max_retries = 5`,
`message_ttl = 300000` and `max_message_count = 1000`. -/
def EventSubscriber.init (exchange_name dead_letter_exchange : String) :
    EventSubscriber :=
  { exchange_name := exchange_name
    dead_letter_exchange := dead_letter_exchange
    retry_exchange := "retry_exchange"
    max_retries := 5
    message_ttl := 300000
    max_message_count := 1000 }

/-- `retries = (message.headers or {}).get("x-retries", 0)`: an absent
mapping or an absent key defaults to 0.  The pipeline only ever stores
integers under "x-retries"; a value of another shape (which would make the
subsequent Python comparison raise) never arises in the theorems below. -/
def getRetries (m : IncomingMessage) : Nat :=
  match (m.headers.getD []).lookup "x-retries" with
  | some (.int n) => n
  | _ => 0

/-- `request_id = message.headers.get("request_id") if message.headers
else str(uuid.uuid4())`: the fresh id `fresh` is used only when the headers
mapping is absent (`none`) or empty (both falsy in Python); otherwise the
stored value is used, `dict.get` returning `None` (`.null`) when the key is
missing. -/
def computeRequestId (m : IncomingMessage) (fresh : String) : HVal :=
  match m.headers with
  | none => .str fresh
  | some [] => .str fresh
  | some hs => (hs.lookup "request_id").getD .null

/-- The observable outcome of `_handle_failed_message`: either a republish
to the retry exchange (routing key "retry_queue") after sleeping `delay`
seconds, or a publish to the dead-letter exchange. -/
inductive FailAction where
  | retried (exchange routing_key : String) (delay : Nat) (env : OutMessage)
  | deadLettered (exchange : String) (env : OutMessage)
deriving DecidableEq

/-- Headers of the envelope a failure outcome publishes. -/
def FailAction.outHeaders : FailAction → Headers
  | .retried _ _ _ env => env.headers
  | .deadLettered _ env => env.headers

/-- Whether the outcome is a publish to the dead-letter exchange. -/
def FailAction.isDeadLettered : FailAction → Bool
  | .deadLettered _ _ => true
  | _ => false

/-- The "x-retries" value carried by a retry republish (none for a
dead-letter publish or a malformed header). -/
def FailAction.retryCount : FailAction → Option Nat
  | .retried _ _ _ env =>
    match env.headers.lookup "x-retries" with
    | some (.int n) => some n
    | _ => none
  | .deadLettered _ _ => none

/-- The backoff sleep performed before a retry republish. -/
def FailAction.delay : FailAction → Option Nat
  | .retried _ _ d _ => some d
  | .deadLettered _ _ => none

/-- `EventSubscriber._handle_failed_message(message, request_id)`: read the
retry count; below `max_retries`, increment it, sleep `2 ** retries`
seconds and republish the body to the retry exchange with headers
`{"x-retries": retries, "request_id": request_id}` and routing key
"retry_queue"; otherwise publish the body to the dead-letter exchange with
headers `{"request_id": request_id}`. -/
def EventSubscriber.handle_failed_message (s : EventSubscriber)
    (m : IncomingMessage) (request_id : HVal) : FailAction :=
  let retries := getRetries m
  if retries < s.max_retries then
    .retried s.retry_exchange "retry_queue" (2 ^ (retries + 1))
      { body := m.body
        headers := [("x-retries", .int (retries + 1)), ("request_id", request_id)] }
  else
    .deadLettered s.dead_letter_exchange
      { body := m.body, headers := [("request_id", request_id)] }

/-- A republished envelope as it is next delivered by the broker. -/
def toIncoming (env : OutMessage) : IncomingMessage :=
  { body := env.body, headers := some env.headers }

/-- The envelope `_handle_failed_message` republishes at retry count `r`. -/
def retryEnv (b : List Nat) (rid : HVal) (r : Nat) : OutMessage :=
  { body := b, headers := [("x-retries", .int r), ("request_id", rid)] }

/-- Trace of `_handle_failed_message` outcomes for a message whose
processing fails on every (re)delivery, for up to `n` failure cycles.  A
retried envelope is redelivered with its new headers (its non-empty headers
store the same "request_id", which `computeRequestId` then returns); a
dead-lettered envelope is acknowledged and sits on the dead-letter queue,
which this consumer does not read, so the trace ends there. -/
def failTrace (s : EventSubscriber) (m : IncomingMessage) (request_id : HVal) :
    Nat → List FailAction
  | 0 => []
  | n + 1 =>
    match s.handle_failed_message m request_id with
    | .retried e rk d env =>
      .retried e rk d env :: failTrace s (toIncoming env) request_id n
    | .deadLettered e env => [.deadLettered e env]

/-- Result of one run of the `on_message` handler: the callback invocations
it performed and the failure handling it triggered, if any. -/
structure ConsumeTrace (β : Type) where
  callbackCalls : List (β × HVal)
  failAction : Option FailAction

/-- `_deserialize_and_validate_message`: `json.loads` on the body, then
`validate_message_schema`; both `json.JSONDecodeError` and `ValueError`
are re-raised as `ValueError("Invalid message format: ...")`. -/
def deserialize_and_validate {β : Type} (jsonLoads : List Nat → Except String β)
    (validate : β → Except String Unit) (body : List Nat) : Except String β :=
  match jsonLoads body with
  | .error e => .error ("Invalid message format: " ++ e)
  | .ok d =>
    match validate d with
    | .error e => .error ("Invalid message format: " ++ e)
    | .ok _ => .ok d

/-- One run of the `on_message` handler built by `_consume_message`:
compute the request id, deserialize and validate the body, on success
invoke the callback exactly once; a deserialization/validation error or an
exception raised by the callback itself (`callbackOk _ _ = false`) routes
the delivery to `_handle_failed_message`. -/
def EventSubscriber.consume_message {β : Type} (s : EventSubscriber)
    (jsonLoads : List Nat → Except String β) (validate : β → Except String Unit)
    (callbackOk : β → HVal → Bool) (m : IncomingMessage) (fresh : String) :
    ConsumeTrace β :=
  let rid := computeRequestId m fresh
  match deserialize_and_validate jsonLoads validate m.body with
  | .ok d =>
    if callbackOk d rid then
      { callbackCalls := [(d, rid)], failAction := none }
    else
      { callbackCalls := [(d, rid)], failAction := some (s.handle_failed_message m rid) }
  | .error _ =>
    { callbackCalls := [], failAction := some (s.handle_failed_message m rid) }

/-- The declaration arguments `subscribe_events` passes to `declare_queue`. -/
structure QueueDeclaration where
  name : String
  durable : Bool
  auto_delete : Bool
  arguments : Headers
deriving DecidableEq

/-- What `subscribe_events` sets up: the queue declaration, the exchange the
queue is bound to, and the `no_ack` flag passed to `consume`. -/
structure SubscribeResult where
  declaration : QueueDeclaration
  boundExchange : String
  no_ack : Bool
deriving DecidableEq

/-- `EventSubscriber.subscribe_events(queue_name, callback)`: declares the
queue durable and non-auto-deleted with arguments
`{"x-message-ttl": message_ttl, "x-dead-letter-exchange":
dead_letter_exchange, "x-max-length": max_message_count}`, binds it to the
main exchange and consumes with `no_ack=False`. -/
def EventSubscriber.subscribe_events (s : EventSubscriber) (queue_name : String) :
    SubscribeResult :=
  { declaration :=
      { name := queue_name
        durable := true
        auto_delete := false
        arguments :=
          [("x-message-ttl", .int s.message_ttl),
           ("x-dead-letter-exchange", .str s.dead_letter_exchange),
           ("x-max-length", .int s.max_message_count)] }
    boundExchange := s.exchange_name
    no_ack := false }

/-- A WebSocket connection, identified by a numeric handle. -/
abbrev Conn := Nat

/-- An auction room identifier. -/
abbrev RoomId := String

/-- The room registry of `ConnectionManager` plus the backbone (Redis
pub/sub) state its methods mutate: `active_connections` is the Python dict
(insertion-ordered association list with unique keys), `subscriptions` the
channels currently subscribed on the shared pubsub client, and `tasks` the
listener tasks spawned by `asyncio.create_task` (recorded by the room they
listen for; the source never cancels them). -/
structure ConnectionManager where
  active_connections : List (RoomId × List Conn)
  subscriptions : List RoomId
  tasks : List RoomId
  backbone_connected : Bool
deriving DecidableEq

/-- The freshly constructed manager: empty registry, nothing subscribed. -/
def ConnectionManager.init : ConnectionManager :=
  { active_connections := []
    subscriptions := []
    tasks := []
    backbone_connected := false }

/-- Python dict assignment `d[k] = v`: overwrite the entry in place when the
key exists, otherwise append it. -/
def setRoom (d : List (RoomId × List Conn)) (room : RoomId)
    (conns : List Conn) : List (RoomId × List Conn) :=
  if (d.lookup room).isSome then
    d.map (fun p => if p.1 = room then (room, conns) else p)
  else
    d ++ [(room, conns)]

/-- Python `del d[k]`. -/
def delRoom (d : List (RoomId × List Conn)) (room : RoomId) :
    List (RoomId × List Conn) :=
  d.filter (fun p => p.1 ≠ room)

/-- `ConnectionManager.connect(websocket, auction_id)`: after accepting the
handshake, `if connections.get(auction_id):` (truthy, i.e. present and
non-empty) append the socket; otherwise store `[websocket]`, connect the
backbone client, subscribe to the channel named by the auction id and spawn
a listener task for it. -/
def ConnectionManager.connect (st : ConnectionManager) (websocket : Conn)
    (auction_id : RoomId) : ConnectionManager :=
  match st.active_connections.lookup auction_id with
  | some (c :: cs) =>
    { st with
      active_connections :=
        setRoom st.active_connections auction_id ((c :: cs) ++ [websocket]) }
  | _ =>
    { st with
      active_connections := setRoom st.active_connections auction_id [websocket]
      backbone_connected := true
      subscriptions := st.subscriptions ++ [auction_id]
      tasks := st.tasks ++ [auction_id] }

/-- The Python exceptions `disconnect` can raise. -/
inductive PyError where
  | keyError (k : RoomId)
  | valueError
deriving DecidableEq

/-- `ConnectionManager.disconnect(websocket, auction_id)`:
`self.active_connections[auction_id].remove(websocket)` raises `KeyError`
when the room is unknown and `ValueError` when the socket is not in the
room's list — in both cases before any mutation, so an `Except.error`
result models the registry, subscriptions and tasks all left unchanged.
When the room's list becomes empty the room record is deleted and the
channel unsubscribed; the listener task is NOT cancelled. -/
def ConnectionManager.disconnect (st : ConnectionManager) (websocket : Conn)
    (auction_id : RoomId) : Except PyError ConnectionManager :=
  match st.active_connections.lookup auction_id with
  | none => .error (.keyError auction_id)
  | some conns =>
    if websocket ∈ conns then
      let conns' := conns.erase websocket
      if conns' = [] then
        .ok { st with
          active_connections := delRoom st.active_connections auction_id
          subscriptions := st.subscriptions.erase auction_id }
      else
        .ok { st with
          active_connections := setRoom st.active_connections auction_id conns' }
    else
      .error .valueError

/-- `ConnectionManager.has_active_connection(auction_id)`:
`auction_id in self.active_connections and
bool(self.active_connections[auction_id])`. -/
def ConnectionManager.has_active_connection (st : ConnectionManager)
    (auction_id : RoomId) : Bool :=
  (st.active_connections.lookup auction_id).isSome &&
    !((st.active_connections.lookup auction_id).getD []).isEmpty

/-- The per-message fan-out loop of `_pubsub_data_reader`: it sends the
payload to the room's sockets in registration order; the loop body has no
exception handling, so the first failed `send_text` (modelled by
`sendOk s = false`) raises out of the `for` loop and out of the
`while True` loop, killing the listener task.  Returns the sockets actually
delivered to, and whether the loop (hence the listener) survived. -/
def fanout (sockets : List Conn) (sendOk : Conn → Bool) : List Conn × Bool :=
  match sockets with
  | [] => ([], true)
  | s :: rest =>
    if sendOk s then
      let r := fanout rest sendOk
      (s :: r.1, r.2)
    else
      ([], false)

/-- Branch lemma: below `max_retries`, `_handle_failed_message` republishes
to the retry exchange with the incremented count and backoff `2 ^ (count+1)`. -/
theorem handle_failed_retried (s : EventSubscriber) (m : IncomingMessage)
    (rid : HVal) (hlt : getRetries m < s.max_retries) :
    s.handle_failed_message m rid =
      .retried s.retry_exchange "retry_queue" (2 ^ (getRetries m + 1))
        (retryEnv m.body rid (getRetries m + 1)) := by
  simp [EventSubscriber.handle_failed_message, hlt, retryEnv]

/-- Branch lemma: at or above `max_retries`, `_handle_failed_message`
publishes the body to the dead-letter exchange with only a request id
header. -/
theorem handle_failed_dlx (s : EventSubscriber) (m : IncomingMessage)
    (rid : HVal) (hge : ¬ getRetries m < s.max_retries) :
    s.handle_failed_message m rid =
      .deadLettered s.dead_letter_exchange
        { body := m.body, headers := [("request_id", rid)] } := by
  simp [EventSubscriber.handle_failed_message, hge]

/-- A redelivered retry envelope carries exactly the retry count that was
written into it. -/
theorem getRetries_retryEnv (b : List Nat) (rid : HVal) (r : Nat) :
    getRetries (toIncoming (retryEnv b rid r)) = r := rfl

/-- One unfolding of the failure trace. -/
theorem failTrace_succ (s : EventSubscriber) (m : IncomingMessage)
    (rid : HVal) (n : Nat) :
    failTrace s m rid (n + 1) =
      match s.handle_failed_message m rid with
      | .retried e rk d env =>
        .retried e rk d env :: failTrace s (toIncoming env) rid n
      | .deadLettered e env => [.deadLettered e env] := rfl

/-- Trace step below `max_retries`. -/
theorem failTrace_step_retried (s : EventSubscriber) (m : IncomingMessage)
    (rid : HVal) (n : Nat) (hlt : getRetries m < s.max_retries) :
    failTrace s m rid (n + 1) =
      .retried s.retry_exchange "retry_queue" (2 ^ (getRetries m + 1))
          (retryEnv m.body rid (getRetries m + 1))
        :: failTrace s (toIncoming (retryEnv m.body rid (getRetries m + 1))) rid n := by
  rw [failTrace_succ, handle_failed_retried s m rid hlt]

/-- Trace step at or above `max_retries`: the trace ends with the single
dead-letter publish, whatever cycle budget remains. -/
theorem failTrace_step_dlx (s : EventSubscriber) (m : IncomingMessage)
    (rid : HVal) (n : Nat) (hge : ¬ getRetries m < s.max_retries) :
    failTrace s m rid (n + 1) =
      [.deadLettered s.dead_letter_exchange
        { body := m.body, headers := [("request_id", rid)] }] := by
  rw [failTrace_succ, handle_failed_dlx s m rid hge]

/-- The full failure trace of a message that starts with retry count 0 and
fails on six or more consecutive (re)deliveries: five retry republishes with
counts 1..5 and backoffs 2,4,8,16,32, then a single dead-letter publish,
and nothing afterwards. -/
theorem failTrace_six (ex dlx : String) (m : IncomingMessage) (rid : HVal)
    (h : getRetries m = 0) (k : Nat) :
    failTrace (EventSubscriber.init ex dlx) m rid (k + 6) =
      [.retried "retry_exchange" "retry_queue" 2 (retryEnv m.body rid 1),
       .retried "retry_exchange" "retry_queue" 4 (retryEnv m.body rid 2),
       .retried "retry_exchange" "retry_queue" 8 (retryEnv m.body rid 3),
       .retried "retry_exchange" "retry_queue" 16 (retryEnv m.body rid 4),
       .retried "retry_exchange" "retry_queue" 32 (retryEnv m.body rid 5),
       .deadLettered dlx { body := m.body, headers := [("request_id", rid)] }] := by
  have hlt : getRetries m < (EventSubscriber.init ex dlx).max_retries := by
    rw [h]; norm_num [EventSubscriber.init]
  rw [show k + 6 = (k + 5) + 1 from rfl,
    failTrace_step_retried (EventSubscriber.init ex dlx) m rid (k + 5) hlt, h]
  rfl

/-- C1: for every failed delivery, the "x-retries" count (default 0) in the
republished envelope is exactly one more than the delivered one and never
exceeds `max_retries` (5, the value `EventSubscriber.init` fixes); a message
that fails 6 consecutive times is published to the dead-letter exchange
exactly once, and however many further cycles one allows, the trace never
revisits the retry exchange. -/
theorem C1_retry_increment_bounded_dlx_once (ex dlx : String)
    (m : IncomingMessage) (rid : HVal) (h : getRetries m = 0) :
    (∀ (m' : IncomingMessage) (e rk : String) (d : Nat) (env : OutMessage),
      (EventSubscriber.init ex dlx).handle_failed_message m' rid = .retried e rk d env →
        env.headers.lookup "x-retries" = some (.int (getRetries m' + 1)) ∧
        getRetries m' + 1 ≤ 5)
    ∧ (failTrace (EventSubscriber.init ex dlx) m rid 6).map FailAction.retryCount =
        [some 1, some 2, some 3, some 4, some 5, none]
    ∧ ((failTrace (EventSubscriber.init ex dlx) m rid 6).filter
        FailAction.isDeadLettered).length = 1
    ∧ ∀ k, failTrace (EventSubscriber.init ex dlx) m rid (k + 6) =
        failTrace (EventSubscriber.init ex dlx) m rid 6 := by
  have h6 : failTrace (EventSubscriber.init ex dlx) m rid 6 =
      [.retried "retry_exchange" "retry_queue" 2 (retryEnv m.body rid 1),
       .retried "retry_exchange" "retry_queue" 4 (retryEnv m.body rid 2),
       .retried "retry_exchange" "retry_queue" 8 (retryEnv m.body rid 3),
       .retried "retry_exchange" "retry_queue" 16 (retryEnv m.body rid 4),
       .retried "retry_exchange" "retry_queue" 32 (retryEnv m.body rid 5),
       .deadLettered dlx { body := m.body, headers := [("request_id", rid)] }] :=
    failTrace_six ex dlx m rid h 0
  refine ⟨?_, ?_, ?_, ?_⟩
  · intro m' e rk d env heq
    by_cases hlt : getRetries m' < (EventSubscriber.init ex dlx).max_retries
    · rw [handle_failed_retried _ _ _ hlt] at heq
      injection heq with h1 h2 h3 h4
      subst h4
      have hlt5 : getRetries m' < 5 := hlt
      exact ⟨rfl, by omega⟩
    · rw [handle_failed_dlx _ _ _ hlt] at heq
      cases heq
  · rw [h6]; rfl
  · rw [h6]; rfl
  · intro k
    rw [failTrace_six ex dlx m rid h k, h6]

/-- Witness for C1 at a concrete fresh message. -/
theorem C1_witness :
    (failTrace (EventSubscriber.init "main" "dlq")
        { body := [], headers := none } (.str "w") 6).map FailAction.retryCount =
      [some 1, some 2, some 3, some 4, some 5, none] :=
  (C1_retry_increment_bounded_dlx_once "main" "dlq"
    { body := [], headers := none } (.str "w") rfl).2.1

/-- C3: every retry republish sleeps exactly `2 ^ n` time units where `n` is
that cycle's incremented retry count, so the successive backoffs of a
message that keeps failing are 2, 4, 8, 16, 32 — strictly increasing. -/
theorem C3_backoff_delays (ex dlx : String) (m : IncomingMessage) (rid : HVal)
    (h : getRetries m = 0) :
    (∀ (m' : IncomingMessage) (e rk : String) (d : Nat) (env : OutMessage),
      (EventSubscriber.init ex dlx).handle_failed_message m' rid = .retried e rk d env →
        d = 2 ^ (getRetries m' + 1))
    ∧ (failTrace (EventSubscriber.init ex dlx) m rid 6).filterMap FailAction.delay =
        [2, 4, 8, 16, 32]
    ∧ List.Chain' (· < ·)
        ((failTrace (EventSubscriber.init ex dlx) m rid 6).filterMap FailAction.delay) := by
  have h6 := failTrace_six ex dlx m rid h 0
  refine ⟨?_, ?_, ?_⟩
  · intro m' e rk d env heq
    by_cases hlt : getRetries m' < (EventSubscriber.init ex dlx).max_retries
    · rw [handle_failed_retried _ _ _ hlt] at heq
      injection heq with h1 h2 h3 h4
      exact h3.symm
    · rw [handle_failed_dlx _ _ _ hlt] at heq
      cases heq
  · rw [show (6 : Nat) = 0 + 6 from rfl, h6]; rfl
  · rw [show (6 : Nat) = 0 + 6 from rfl, h6]
    simp [List.filterMap, FailAction.delay]

/-- Witness for C3 at a concrete fresh message. -/
theorem C3_witness :
    (failTrace (EventSubscriber.init "main" "dlq")
        { body := [], headers := none } (.str "w") 6).filterMap FailAction.delay =
      [2, 4, 8, 16, 32] :=
  (C3_backoff_delays "main" "dlq" { body := [], headers := none } (.str "w") rfl).2.1

/-- C5 counterexample: a delivery with headers `{"x-retries": 5,
"request_id": "r"}` is dead-lettered, but the envelope published to the
dead-letter exchange does NOT carry the "x-retries" header — the claim that
all headers other than the request id are preserved is false. -/
theorem C5_counterexample :
    ((EventSubscriber.init "main" "dlq").handle_failed_message
        { body := [104], headers := some [("x-retries", .int 5), ("request_id", .str "r")] }
        (.str "r")).isDeadLettered = true
    ∧ ((EventSubscriber.init "main" "dlq").handle_failed_message
        { body := [104], headers := some [("x-retries", .int 5), ("request_id", .str "r")] }
        (.str "r")).outHeaders.lookup "x-retries" = none :=
  ⟨rfl, rfl⟩

/-- C5 amended: when a failed message is dead-lettered, the published
envelope carries the original body unchanged, but its headers are replaced
by the single "request_id" header; every other delivered header, including
"x-retries", is dropped. -/
theorem C5_amended_dlx_envelope (s : EventSubscriber) (m : IncomingMessage)
    (rid : HVal) (hge : ¬ getRetries m < s.max_retries) :
    s.handle_failed_message m rid =
      .deadLettered s.dead_letter_exchange
        { body := m.body, headers := [("request_id", rid)] } :=
  handle_failed_dlx s m rid hge

/-- Witness for the amended C5 at a concrete exhausted message. -/
theorem C5_amended_witness :
    (EventSubscriber.init "main" "dlq").handle_failed_message
        { body := [1, 2], headers := some [("x-retries", .int 7)] } .null =
      .deadLettered "dlq" { body := [1, 2], headers := [("request_id", .null)] } :=
  C5_amended_dlx_envelope (EventSubscriber.init "main" "dlq")
    { body := [1, 2], headers := some [("x-retries", .int 7)] } .null (by decide)

/-- C7: `subscribe_events(queue_name, callback)` declares a durable,
non-auto-deleted queue whose arguments are exactly message TTL 300000 ms,
dead-letter-exchange = the subscriber's dead-letter exchange, and max
length 1000; binds it to the main exchange; and consumes with manual
acknowledgment (`no_ack = false`). -/
theorem C7_subscribe_events_declaration (ex dlx qn : String) :
    (EventSubscriber.init ex dlx).subscribe_events qn =
      { declaration :=
          { name := qn
            durable := true
            auto_delete := false
            arguments :=
              [("x-message-ttl", .int 300000),
               ("x-dead-letter-exchange", .str dlx),
               ("x-max-length", .int 1000)] }
        boundExchange := ex
        no_ack := false } := rfl

/-- The retry/dead-letter envelope always stores the request id it was
handed under the "request_id" header. -/
theorem outHeaders_request_id (s : EventSubscriber) (m : IncomingMessage)
    (rid : HVal) :
    (s.handle_failed_message m rid).outHeaders.lookup "request_id" = some rid := by
  by_cases hlt : getRetries m < s.max_retries
  · rw [handle_failed_retried s m rid hlt]; rfl
  · rw [handle_failed_dlx s m rid hlt]; rfl

/-- C4: the application callback is invoked exactly once if and only if the
body parses as JSON and passes schema validation; a delivery failing either
step is never passed to the callback and is routed to
`_handle_failed_message` instead. -/
theorem C4_callback_iff_valid {β : Type} (s : EventSubscriber)
    (jsonLoads : List Nat → Except String β) (validate : β → Except String Unit)
    (callbackOk : β → HVal → Bool) (m : IncomingMessage) (fresh : String) :
    ((s.consume_message jsonLoads validate callbackOk m fresh).callbackCalls.length = 1 ↔
      ∃ d, jsonLoads m.body = .ok d ∧ validate d = .ok ())
    ∧ (∀ e : String,
        (jsonLoads m.body = .error e ∨
          ∃ d, jsonLoads m.body = .ok d ∧ validate d = .error e) →
        (s.consume_message jsonLoads validate callbackOk m fresh).callbackCalls = []
        ∧ (s.consume_message jsonLoads validate callbackOk m fresh).failAction =
            some (s.handle_failed_message m (computeRequestId m fresh))) := by
  cases hj : jsonLoads m.body with
  | error e0 =>
    constructor
    · simp [EventSubscriber.consume_message, deserialize_and_validate, hj]
    · intro e he
      simp [EventSubscriber.consume_message, deserialize_and_validate, hj]
  | ok d0 =>
    cases hv : validate d0 with
    | error e0 =>
      constructor
      · simp [EventSubscriber.consume_message, deserialize_and_validate, hj, hv]
      · intro e he
        simp [EventSubscriber.consume_message, deserialize_and_validate, hj, hv]
    | ok u =>
      constructor
      · cases hc : callbackOk d0 (computeRequestId m fresh) <;>
          simp [EventSubscriber.consume_message, deserialize_and_validate, hj, hv, hc]
      · intro e he
        rcases he with he | ⟨d1, hd1, hv1⟩
        · cases he
        · injection hd1 with hd1
          subst hd1
          rw [hv] at hv1
          cases hv1

/-- Witness for C4: a body whose JSON parse fails never reaches the
callback and is handed to the failure path. -/
theorem C4_witness :
    ((EventSubscriber.init "main" "dlq").consume_message
        (fun _ => (.error "bad json" : Except String Nat)) (fun _ => .ok ())
        (fun _ _ => true) { body := [], headers := none } "f").callbackCalls = [] :=
  ((C4_callback_iff_valid (EventSubscriber.init "main" "dlq")
      (fun _ => (.error "bad json" : Except String Nat)) (fun _ => .ok ())
      (fun _ _ => true) { body := [], headers := none } "f").2
    "bad json" (Or.inl rfl)).1

/-- C10: a fresh request id is synthesized only when the headers mapping is
absent or empty; with a non-empty mapping the request id is the stored
value, i.e. `.null` when no "request_id" key is present, and the retried or
dead-lettered envelope produced from such a delivery carries a "request_id"
header whose value is `.null`, not a generated id. -/
theorem C10_request_id_null (ex dlx : String) (m : IncomingMessage)
    (fresh : String) (hs : Headers) (hm : m.headers = some hs) (hne : hs ≠ [])
    (hno : hs.lookup "request_id" = none) :
    computeRequestId m fresh = .null
    ∧ (∀ (m' : IncomingMessage) (fr : String),
        m'.headers = none ∨ m'.headers = some [] → computeRequestId m' fr = .str fr)
    ∧ (∀ (b : List Nat) (p : String × HVal) (t : Headers) (fr : String),
        computeRequestId { body := b, headers := some (p :: t) } fr =
          ((p :: t).lookup "request_id").getD .null)
    ∧ ((EventSubscriber.init ex dlx).handle_failed_message m
        (computeRequestId m fresh)).outHeaders.lookup "request_id" = some .null := by
  have h1 : computeRequestId m fresh = .null := by
    rcases hs with _ | ⟨p, t⟩
    · exact absurd rfl hne
    · simp [computeRequestId, hm, hno]
  refine ⟨h1, ?_, ?_, ?_⟩
  · intro m' fr hm'
    rcases hm' with hm' | hm' <;> simp [computeRequestId, hm']
  · intro b p t fr
    rfl
  · rw [outHeaders_request_id, h1]

/-- Witness for C10 at a concrete delivery whose non-empty headers lack a
request id. -/
theorem C10_witness :
    computeRequestId { body := [], headers := some [("k", .str "v")] } "fresh" = .null ∧
    ((EventSubscriber.init "main" "dlq").handle_failed_message
        { body := [], headers := some [("k", .str "v")] }
        (computeRequestId { body := [], headers := some [("k", .str "v")] } "fresh")
      ).outHeaders.lookup "request_id" = some .null :=
  ⟨(C10_request_id_null "main" "dlq" { body := [], headers := some [("k", .str "v")] }
      "fresh" [("k", .str "v")] rfl (by decide) rfl).1,
   (C10_request_id_null "main" "dlq" { body := [], headers := some [("k", .str "v")] }
      "fresh" [("k", .str "v")] rfl (by decide) rfl).2.2.2⟩

/-- C2 failing run: `connect` of a first socket into room "r" records the
room, the backbone subscription and the listener task; `disconnect` of that
last socket deletes the room record and the subscription but leaves the
listener task running — the source never cancels it, so the "listener task
iff non-empty connection set" invariant breaks at this instant. -/
theorem C2_orphaned_listener :
    (ConnectionManager.init.connect 1 "r").disconnect 1 "r" =
      .ok { active_connections := []
            subscriptions := []
            tasks := ["r"]
            backbone_connected := true } := rfl

/-- C6 failing run: fanning out to the room's sockets `[1, 2]` when the
send to socket 1 raises delivers to NO remaining socket and kills the
listener loop (`false`), instead of isolating the failure and delivering to
socket 2 — even though the send to socket 2 alone would succeed. -/
theorem C6_fanout_not_isolated :
    fanout [1, 2] (fun c => c != 1) = ([], false)
    ∧ fanout [2] (fun c => c != 1) = ([2], true) := ⟨rfl, rfl⟩

/-- C8: `has_active_connection(roomId)` returns true iff the registry holds
a record for the room and its connection list is non-empty. -/
theorem C8_has_active_connection_iff (st : ConnectionManager) (room : RoomId) :
    st.has_active_connection room = true ↔
      ∃ conns, st.active_connections.lookup room = some conns ∧ conns ≠ [] := by
  cases hl : st.active_connections.lookup room with
  | none => simp [ConnectionManager.has_active_connection, hl]
  | some conns =>
    cases conns with
    | nil => simp [ConnectionManager.has_active_connection, hl]
    | cons c cs => simp [ConnectionManager.has_active_connection, hl]

/-- Witness for C8 on a concrete one-room registry. -/
theorem C8_witness :
    ({ active_connections := [("a", [7])]
       subscriptions := ["a"]
       tasks := ["a"]
       backbone_connected := true } : ConnectionManager).has_active_connection "a" = true :=
  (C8_has_active_connection_iff _ "a").mpr ⟨[7], rfl, by decide⟩

/-- C9: `disconnect` on a room with no registry record raises `KeyError`
(returning no updated state: registry and backbone state unchanged), and
`disconnect` of a socket absent from an existing room's list raises
`ValueError` before any unsubscribe or record deletion. -/
theorem C9_disconnect_raises (st : ConnectionManager) (ws : Conn) (room : RoomId) :
    (st.active_connections.lookup room = none →
      st.disconnect ws room = .error (.keyError room))
    ∧ (∀ conns, st.active_connections.lookup room = some conns → ws ∉ conns →
      st.disconnect ws room = .error .valueError) := by
  constructor
  · intro hl
    simp [ConnectionManager.disconnect, hl]
  · intro conns hl hmem
    simp [ConnectionManager.disconnect, hl, hmem]

/-- Witness for C9: a missing room and a socket missing from a live room. -/
theorem C9_witness :
    ConnectionManager.init.disconnect 3 "missing" = .error (.keyError "missing")
    ∧ ({ active_connections := [("a", [7])]
         subscriptions := ["a"]
         tasks := ["a"]
         backbone_connected := true } : ConnectionManager).disconnect 3 "a" =
        .error .valueError :=
  ⟨(C9_disconnect_raises ConnectionManager.init 3 "missing").1 rfl,
   (C9_disconnect_raises _ 3 "a").2 [7] rfl (by decide)⟩

end Spec2Proof
